import Mathlib

/-!
Shallow embedding of the two feature modules of this repository that the
claims concern: the data-grid filter/sort/paginate pipeline
(src/components/optimized-data-grid/store.ts and DataTable.tsx) and the
dynamic-form state engine (src/components/DynamicForm/reducer.ts and
index.tsx).  JavaScript numbers are modelled as Int (the pipeline only
compares and subtracts them), strings as String, and the stable
Array.prototype.sort with a comparator as insertion sort on the relation
"comparator result is nonpositive" (insertion sort is stable and produces
a sorted permutation, which is exactly the ECMAScript contract).
-/

namespace DataGrid

/-- The record type of the grid (interface DataItem in store.ts). -/
structure DataItem where
  id : Int
  name : String
  email : String
  department : String
  salary : Int
  startDate : String
  status : String
deriving DecidableEq, Repr

/-- The sortable columns, that is the keys of DataItem used by the table
headers in DataTable.tsx. -/
inductive SortKey where
  | id | name | email | department | salary | startDate | status
deriving DecidableEq, Repr

/-- Sort direction (asc or desc in SortConfig). -/
inductive SortDirection where
  | asc | desc
deriving DecidableEq, Repr

/-- interface SortConfig in store.ts. -/
structure SortConfig where
  key : SortKey
  direction : SortDirection
deriving DecidableEq, Repr

/-- interface FilterConfig in store.ts. -/
structure FilterConfig where
  search : String
  department : String
  status : String
  minSalary : Int
  maxSalary : Int
deriving DecidableEq, Repr

/-- The default filter configuration used by the initial state and by
resetFilters in store.ts. -/
def defaultFilterConfig : FilterConfig :=
  { search := "", department := "", status := "", minSalary := 0,
    maxSalary := 200000 }

/-- String.prototype.includes: the needle occurs contiguously in the
haystack. -/
def jsIncludes (s sub : String) : Bool :=
  decide (sub.toList <:+: s.toList)

/-- The search predicate of applyFiltersAndSort: case-insensitive substring
match of the search text against name, email or department. -/
def searchMatch (search : String) (item : DataItem) : Bool :=
  let searchLower := search.toLower
  jsIncludes item.name.toLower searchLower ||
  jsIncludes item.email.toLower searchLower ||
  jsIncludes item.department.toLower searchLower

/-- The value a DataItem holds at a sort key: a number for id and salary,
a string for the other columns (this is the typeof dispatch the comparator
in store.ts performs at runtime). -/
def keyVal : SortKey → DataItem → Int ⊕ String
  | .id, item => .inl item.id
  | .name, item => .inr item.name
  | .email, item => .inr item.email
  | .department, item => .inr item.department
  | .salary, item => .inl item.salary
  | .startDate, item => .inr item.startDate
  | .status, item => .inr item.status

/-- Sign-valued model of String.prototype.localeCompare: negative, zero or
positive according to the relative order of the two strings. -/
def strCmp (s t : String) : Int :=
  if s < t then -1 else if t < s then 1 else 0

/-- The comparator passed to filtered.sort in applyFiltersAndSort
(store.ts, lines 164 to 180): localeCompare for two strings, subtraction
for two numbers, 0 for any other pairing, with the sign flipped for the
descending direction. -/
def cmpItems (key : SortKey) (dir : SortDirection) (a b : DataItem) : Int :=
  match keyVal key a, keyVal key b with
  | .inr aValue, .inr bValue =>
    let comparison := strCmp aValue bValue
    match dir with
    | .asc => comparison
    | .desc => -comparison
  | .inl aValue, .inl bValue =>
    match dir with
    | .asc => aValue - bValue
    | .desc => bValue - aValue
  | _, _ => 0

/-- The sort stage of applyFiltersAndSort: when a sort config is present,
the stable JavaScript sort under the comparator, modelled as insertion
sort on the relation "comparator is nonpositive"; otherwise the list is
left as is. -/
def sortItems (sc : Option SortConfig) (l : List DataItem) : List DataItem :=
  match sc with
  | none => l
  | some c =>
    List.insertionSort (fun a b => cmpItems c.key c.direction a b ≤ 0) l

/-- The filter stages of applyFiltersAndSort (store.ts, lines 127 to 161),
applied in the order of the source: search, department, status, minSalary
(active when positive), maxSalary (active when below 200000). -/
def applyFilters (cfg : FilterConfig) (items : List DataItem) : List DataItem :=
  let filtered := items
  let filtered := if cfg.search ≠ "" then
      filtered.filter (fun item => searchMatch cfg.search item)
    else filtered
  let filtered := if cfg.department ≠ "" then
      filtered.filter (fun item => item.department == cfg.department)
    else filtered
  let filtered := if cfg.status ≠ "" then
      filtered.filter (fun item => item.status == cfg.status)
    else filtered
  let filtered := if cfg.minSalary > 0 then
      filtered.filter (fun item => item.salary ≥ cfg.minSalary)
    else filtered
  let filtered := if cfg.maxSalary < 200000 then
      filtered.filter (fun item => item.salary ≤ cfg.maxSalary)
    else filtered
  filtered

/-- Math.ceil of a quotient of naturals, as computed for totalPages; the
store always divides by the positive page sizes offered by the UI. -/
def ceilDiv (n p : Nat) : Nat := (n + p - 1) / p

/-- interface DataGridState in store.ts (the data fields; the actions are
modelled as functions below). -/
structure GridState where
  items : List DataItem
  filteredItems : List DataItem
  isLoading : Bool
  currentPage : Nat
  itemsPerPage : Nat
  totalPages : Nat
  sortConfig : Option SortConfig
  filterConfig : FilterConfig
deriving DecidableEq, Repr

/-- The initial store state (store.ts, lines 78 to 91). -/
def initialGridState : GridState :=
  { items := [], filteredItems := [], isLoading := false, currentPage := 1,
    itemsPerPage := 20, totalPages := 1, sortConfig := none,
    filterConfig := defaultFilterConfig }

/-- The applyFiltersAndSort action: recompute filteredItems from items,
filterConfig and sortConfig, and recompute totalPages from the filtered
length and the current page size. -/
def applyFiltersAndSort (s : GridState) : GridState :=
  let filtered := sortItems s.sortConfig (applyFilters s.filterConfig s.items)
  { s with filteredItems := filtered,
           totalPages := ceilDiv filtered.length s.itemsPerPage }

/-- The setItems action: store the items, set totalPages from the raw item
count, then run applyFiltersAndSort. -/
def setItems (items : List DataItem) (s : GridState) : GridState :=
  applyFiltersAndSort
    { s with items := items,
             totalPages := ceilDiv items.length s.itemsPerPage }

/-- The setLoading action. -/
def setLoading (loading : Bool) (s : GridState) : GridState :=
  { s with isLoading := loading }

/-- The setCurrentPage action: stores the requested page with no clamping
(store.ts, line 100). -/
def setCurrentPage (page : Nat) (s : GridState) : GridState :=
  { s with currentPage := page }

/-- The setItemsPerPage action: new page size, page reset to 1, totalPages
from the raw item count, then applyFiltersAndSort. -/
def setItemsPerPage (perPage : Nat) (s : GridState) : GridState :=
  applyFiltersAndSort
    { s with itemsPerPage := perPage, currentPage := 1,
             totalPages := ceilDiv s.items.length perPage }

/-- The setSortConfig action. -/
def setSortConfig (config : Option SortConfig) (s : GridState) : GridState :=
  applyFiltersAndSort { s with sortConfig := config }

/-- A partial filter configuration (the Partial FilterConfig argument of
setFilterConfig): absent fields keep their current value. -/
structure FilterConfigUpdate where
  search : Option String := none
  department : Option String := none
  status : Option String := none
  minSalary : Option Int := none
  maxSalary : Option Int := none

/-- The object spread merge performed by setFilterConfig. -/
def mergeFilterConfig (cfg : FilterConfig) (u : FilterConfigUpdate) :
    FilterConfig :=
  { search := u.search.getD cfg.search,
    department := u.department.getD cfg.department,
    status := u.status.getD cfg.status,
    minSalary := u.minSalary.getD cfg.minSalary,
    maxSalary := u.maxSalary.getD cfg.maxSalary }

/-- The setFilterConfig action: merge the update, reset the page to 1,
then applyFiltersAndSort. -/
def setFilterConfig (u : FilterConfigUpdate) (s : GridState) : GridState :=
  applyFiltersAndSort
    { s with filterConfig := mergeFilterConfig s.filterConfig u,
             currentPage := 1 }

/-- The resetFilters action: restore the default filter configuration,
drop the sort, reset the page, then applyFiltersAndSort. -/
def resetFilters (s : GridState) : GridState :=
  applyFiltersAndSort
    { s with filterConfig := defaultFilterConfig, sortConfig := none,
             currentPage := 1 }

/-- Array.prototype.slice for nonnegative bounds. -/
def jsSlice (l : List DataItem) (start stop : Nat) : List DataItem :=
  (l.drop start).take (stop - start)

/-- The paginatedItems window of DataTable.tsx (lines 158 to 162): the
slice of the ordered list from (currentPage - 1) * itemsPerPage of length
itemsPerPage. -/
def paginate (l : List DataItem) (page p : Nat) : List DataItem :=
  let startIndex := (page - 1) * p
  let endIndex := startIndex + p
  jsSlice l startIndex endIndex

/-- The visible rows of the table for a grid state. -/
def paginatedItems (s : GridState) : List DataItem :=
  paginate s.filteredItems s.currentPage s.itemsPerPage

/-- The store operations named by the reachability claim. -/
inductive GridOp where
  | setItems (items : List DataItem)
  | setCurrentPage (page : Nat)
  | setItemsPerPage (perPage : Nat)
  | setSortConfig (config : Option SortConfig)
  | setFilterConfig (u : FilterConfigUpdate)
  | applyFiltersAndSort
  | resetFilters

/-- Interpretation of a store operation as a state transition. -/
def applyOp (op : GridOp) (s : GridState) : GridState :=
  match op with
  | .setItems items => setItems items s
  | .setCurrentPage page => setCurrentPage page s
  | .setItemsPerPage perPage => setItemsPerPage perPage s
  | .setSortConfig config => setSortConfig config s
  | .setFilterConfig u => setFilterConfig u s
  | .applyFiltersAndSort => applyFiltersAndSort s
  | .resetFilters => resetFilters s

/-- Run a sequence of store operations from a state. -/
def applyOps (s : GridState) (ops : List GridOp) : GridState :=
  ops.foldl (fun s op => applyOp op s) s

end DataGrid

namespace DynamicForm

/-- A form value: the string or boolean union of the field value type in
DynamicForm/types.ts. -/
inductive Value where
  | str (s : String)
  | bool (b : Bool)
deriving DecidableEq, Repr

/-- interface FormField in DynamicForm/types.ts. -/
structure FormField where
  name : String
  value : Value
  error : Option String
  touched : Bool
deriving DecidableEq, Repr

/-- interface FormState in DynamicForm/types.ts.  The fields record is a
JavaScript object keyed by field name; it is modelled as the
insertion-ordered list of its entries, whose names are pairwise distinct
in any state a JavaScript object can represent. -/
structure FormState where
  fields : List FormField
  isSubmitting : Bool
  isSubmitted : Bool
  submitError : Option String
deriving DecidableEq, Repr

/-- The FormAction tagged union of DynamicForm/types.ts. -/
inductive FormAction where
  | setFieldValue (name : String) (value : Value)
  | setFieldError (name : String) (error : String)
  | setFieldTouched (name : String)
  | setSubmitting (b : Bool)
  | setSubmitted (b : Bool)
  | setSubmitError (msg : String)
  | resetForm

/-- The reducer of DynamicForm/reducer.ts.  The object spread update of a
single key is modelled as a map that patches the (unique) entry of that
name; the source component only ever dispatches names that are present,
so the insertion of a fresh degenerate entry is not modelled.  RESET_FORM
returns an empty fields object, exactly as in the source. -/
def formReducer (s : FormState) (a : FormAction) : FormState :=
  match a with
  | .setFieldValue name value =>
    { s with fields := s.fields.map (fun f =>
        if f.name == name then
          { f with name := name, value := value, error := none }
        else f) }
  | .setFieldError name error =>
    { s with fields := s.fields.map (fun f =>
        if f.name == name then { f with error := some error } else f) }
  | .setFieldTouched name =>
    { s with fields := s.fields.map (fun f =>
        if f.name == name then { f with touched := true } else f) }
  | .setSubmitting b => { s with isSubmitting := b }
  | .setSubmitted b => { s with isSubmitted := b }
  | .setSubmitError msg => { s with submitError := some msg }
  | .resetForm =>
    { fields := [], isSubmitting := false, isSubmitted := false,
      submitError := none }

/-- resetAllFields of the variant reducer shipped alongside the named one:
every field is returned to touched false, empty-string value and no
error. -/
def resetAllFields (fields : List FormField) : List FormField :=
  fields.map (fun f =>
    { f with touched := false, value := .str "", error := none })

/-- The variant form reducer of the repository whose RESET_FORM keeps the
field entries and resets each one through resetAllFields; it agrees with
formReducer on every other action. -/
def formReducerAlt (s : FormState) (a : FormAction) : FormState :=
  match a with
  | .resetForm =>
    { fields := resetAllFields s.fields, isSubmitting := false,
      isSubmitted := false, submitError := none }
  | a => formReducer s a

/-- JavaScript truthiness of a string-or-undefined validation result: an
error is displayed and counted only when it is a nonempty string. -/
def errTruthy : Option String → Bool
  | none => false
  | some m => !(m == "")

/-- Whether a form state displays a form-level submit error: the
submitError string is present and truthy (FormContainer renders the error
banner under exactly this condition). -/
def hasSubmitError (s : FormState) : Bool :=
  match s.submitError with
  | none => false
  | some m => !(m == "")

/-- A value thrown by the external submit callback: either an Error
object carrying a message, or any non-Error value. -/
inductive Thrown where
  | errorWithMessage (msg : String)
  | nonErrorValue
deriving DecidableEq, Repr

/-- The message submitForm stores for a thrown value (index.tsx, line 91):
the message of an Error instance, the fallback string otherwise. -/
def thrownMessage : Thrown → String
  | .errorWithMessage msg => msg
  | .nonErrorValue => "Submission failed"

/-- The outcome of the external submit callback: normal return or a
thrown value. -/
inductive SubmitResult where
  | ok
  | threw (t : Thrown)
deriving DecidableEq, Repr

/-- The effect on one field entry of the setFieldError dispatch that
submitForm performs for a source field f: when the validator rejects f
with a truthy message, the entry of the same name receives that message
as its error, and nothing else changes. -/
def errPatch (validate : String → Value → Option String)
    (f g : FormField) : FormField :=
  match validate f.name f.value with
  | some e =>
    if e == "" then g
    else if g.name == f.name then { g with error := some e } else g
  | none => g

/-- submitForm of DynamicForm/index.tsx (lines 61 to 96), as the sequence
of reducer dispatches it performs on the captured state: set submitting,
clear the submit error to the empty string, dispatch a setFieldError for
every field whose validator returns a truthy error (iterating the fields
in insertion order), then either stop (validation failure), or consume
the callback outcome, recording isSubmitted on success and the thrown
message as the submit error on failure; submitting is cleared in every
path by the finally block. -/
def submitForm (validate : String → Value → Option String)
    (result : SubmitResult) (s₀ : FormState) : FormState :=
  let s₁ := formReducer s₀ (.setSubmitting true)
  let s₂ := formReducer s₁ (.setSubmitError "")
  let s₃ := s₀.fields.foldl (fun s f =>
      match validate f.name f.value with
      | some e =>
        if e == "" then s else formReducer s (.setFieldError f.name e)
      | none => s) s₂
  let hasErrors := s₀.fields.any (fun f => errTruthy (validate f.name f.value))
  if hasErrors then
    formReducer s₃ (.setSubmitting false)
  else
    match result with
    | .ok =>
      formReducer (formReducer s₃ (.setSubmitted true)) (.setSubmitting false)
    | .threw t =>
      formReducer (formReducer s₃ (.setSubmitError (thrownMessage t)))
        (.setSubmitting false)

end DynamicForm

namespace DataGrid

/-- The single predicate that characterizes the filter pipeline of the
source: an item is kept exactly when every active stage accepts it, the
salary stages being inactive when the lower bound is nonpositive
respectively when the upper bound is at least 200000 (the guards
minSalary greater than 0 and maxSalary below 200000 in store.ts). -/
def keptByFilters (cfg : FilterConfig) (item : DataItem) : Bool :=
  (cfg.search == "" || searchMatch cfg.search item) &&
  (cfg.department == "" || item.department == cfg.department) &&
  (cfg.status == "" || item.status == cfg.status) &&
  (decide (cfg.minSalary ≤ 0) || decide (cfg.minSalary ≤ item.salary)) &&
  (decide (200000 ≤ cfg.maxSalary) || decide (item.salary ≤ cfg.maxSalary))

/-- Follows the words of the claim, for comparison with the source: the
same conjunction, but with the salary bounds skipped exactly when
minSalary equals 0 respectively maxSalary equals 200000. -/
def claimedKeptByFilters (cfg : FilterConfig) (item : DataItem) : Bool :=
  (cfg.search == "" || searchMatch cfg.search item) &&
  (cfg.department == "" || item.department == cfg.department) &&
  (cfg.status == "" || item.status == cfg.status) &&
  (decide (cfg.minSalary = 0) || decide (cfg.minSalary ≤ item.salary)) &&
  (decide (cfg.maxSalary = 200000) || decide (item.salary ≤ cfg.maxSalary))

/-- The search stage of the pipeline as a standalone list transformer. -/
def searchPass (cfg : FilterConfig) (l : List DataItem) : List DataItem :=
  if cfg.search ≠ "" then
    l.filter (fun item => searchMatch cfg.search item)
  else l

/-- The department stage of the pipeline as a standalone transformer. -/
def departmentPass (cfg : FilterConfig) (l : List DataItem) : List DataItem :=
  if cfg.department ≠ "" then
    l.filter (fun item => item.department == cfg.department)
  else l

/-- The status stage of the pipeline as a standalone transformer. -/
def statusPass (cfg : FilterConfig) (l : List DataItem) : List DataItem :=
  if cfg.status ≠ "" then
    l.filter (fun item => item.status == cfg.status)
  else l

/-- The minimum-salary stage of the pipeline as a standalone
transformer. -/
def minSalaryPass (cfg : FilterConfig) (l : List DataItem) : List DataItem :=
  if cfg.minSalary > 0 then
    l.filter (fun item => item.salary ≥ cfg.minSalary)
  else l

/-- The maximum-salary stage of the pipeline as a standalone
transformer. -/
def maxSalaryPass (cfg : FilterConfig) (l : List DataItem) : List DataItem :=
  if cfg.maxSalary < 200000 then
    l.filter (fun item => item.salary ≤ cfg.maxSalary)
  else l

/-- The five filter stages in the order the source applies them. -/
def filterPasses (cfg : FilterConfig) :
    List (List DataItem → List DataItem) :=
  [searchPass cfg, departmentPass cfg, statusPass cfg, minSalaryPass cfg,
   maxSalaryPass cfg]

/-- Apply a list of stages in sequence. -/
def runPasses (ps : List (List DataItem → List DataItem))
    (l : List DataItem) : List DataItem :=
  ps.foldl (fun l f => f l) l

/-- The store operations that end by running applyFiltersAndSort, that is
every operation of the reachability claim except setCurrentPage. -/
def recomputes : GridOp → Prop
  | .setCurrentPage _ => False
  | _ => True

/-- The totalPages consistency law of the spec: totalPages is the ceiling
of the filtered count over the page size. -/
def totalPagesLaw (s : GridState) : Prop :=
  s.totalPages = ceilDiv s.filteredItems.length s.itemsPerPage

/-- The pagination facts claimed for a filtered list and a page size: the
window shape, nonemptiness of exactly the first ceilDiv pages, full size
of every page but the last, the size bound, and that the pages
concatenate back to the list. -/
def paginationProp (l : List DataItem) (p : Nat) : Prop :=
  (∀ k, 1 ≤ k → paginate l k p = (l.drop ((k - 1) * p)).take p) ∧
  (∀ k, 1 ≤ k → (paginate l k p ≠ [] ↔ k ≤ ceilDiv l.length p)) ∧
  (∀ k, 1 ≤ k → k < ceilDiv l.length p → (paginate l k p).length = p) ∧
  (∀ k, (paginate l k p).length ≤ p) ∧
  ((List.range (ceilDiv l.length p)).map
      (fun i => paginate l (i + 1) p)).flatten = l

/-- State of the grid scenario after loading the items and filtering by
status active. -/
def scenarioAfterFilter (items : List DataItem) : GridState :=
  setFilterConfig { status := some "active" } (setItems items initialGridState)

/-- State of the grid scenario after additionally sorting by salary
descending. -/
def scenarioAfterSort (items : List DataItem) : GridState :=
  setSortConfig (some { key := .salary, direction := .desc })
    (scenarioAfterFilter items)

/-- What the scenario claim asserts: page reset to 1 by the filter
change, page 1 holding at most 20 rows, all of them active, and no
active record off page 1 out-salarying any record on page 1. -/
def scenarioProp (items : List DataItem) : Prop :=
  (scenarioAfterFilter items).currentPage = 1 ∧
  (paginatedItems (scenarioAfterSort items)).length ≤ 20 ∧
  (∀ x ∈ paginatedItems (scenarioAfterSort items), x.status = "active") ∧
  (∀ x ∈ (scenarioAfterSort items).filteredItems.drop 20,
   ∀ y ∈ paginatedItems (scenarioAfterSort items), x.salary ≤ y.salary)

/-- What resetFilters restores: default filters, no sort, page 1, the
derived list equal to the stored items in their original order, and the
stored items untouched. -/
def resetFiltersProp (s : GridState) : Prop :=
  (resetFilters s).filterConfig = defaultFilterConfig ∧
  (resetFilters s).sortConfig = none ∧
  (resetFilters s).currentPage = 1 ∧
  (resetFilters s).filteredItems = s.items ∧
  (resetFilters s).items = s.items

/-- A deterministic stand-in for one generated mock record. -/
def mkEmployee (i : Nat) : DataItem :=
  { id := (i : Int) + 1,
    name := "employee",
    email := "employee at company dot com",
    department := if i % 2 == 0 then "Engineering" else "Sales",
    salary := 30000 + 7 * ((i : Int) % 13),
    startDate := "2023-05-01",
    status := if i % 3 == 0 then "active"
              else if i % 3 == 1 then "inactive" else "pending" }

/-- One hundred concrete records for the scenario witness. -/
def items100 : List DataItem := (List.range 100).map mkEmployee

/-- A small concrete record list for the pagination and filter
witnesses. -/
def itemsSmall : List DataItem := (List.range 5).map mkEmployee

/-- Two records tying on salary but distinguishable, refuting the
reverse-of-ascending description of descending sort. -/
def tieA : DataItem :=
  { id := 1, name := "Alpha", email := "alpha", department := "Engineering",
    salary := 50000, startDate := "2023-01-01", status := "active" }

/-- Second record of the salary tie. -/
def tieB : DataItem :=
  { id := 2, name := "Beta", email := "beta", department := "Sales",
    salary := 50000, startDate := "2023-02-01", status := "pending" }

/-- Three records with pairwise distinct salaries for the amended sorting
witness. -/
def distinctSalaryItems : List DataItem :=
  [{ tieA with id := 1, salary := 60000 },
   { tieB with id := 2, salary := 40000 },
   { tieA with id := 3, name := "Gamma", salary := 52000 }]

/-- A filter configuration beyond the sentinel range: the upper bound
300000 exceeds the 200000 sentinel, so the source skips the upper salary
stage while the claim would apply it. -/
def cfgBeyondSentinel : FilterConfig :=
  { search := "", department := "", status := "", minSalary := 0,
    maxSalary := 300000 }

/-- A record whose salary exceeds the out-of-range upper bound. -/
def highEarner : DataItem :=
  { id := 9, name := "High", email := "high", department := "Finance",
    salary := 350000, startDate := "2020-01-01", status := "active" }

/-- An in-range filter configuration exercised by the filter witness. -/
def cfgActive : FilterConfig :=
  { search := "", department := "Engineering", status := "active",
    minSalary := 30000, maxSalary := 100000 }

end DataGrid

namespace DynamicForm

/-- What the amended submit-validation claim asserts about a form state
and schema with at least one truthy validation failure: the result does
not depend on the callback outcome (the callback is never consumed),
each field whose validator returns a nonempty message carries exactly
that message while every other field entry is unchanged, no form-level
submit error is displayed, and submitting has been cleared. -/
def submitAttachesExactly (validate : String → Value → Option String)
    (s₀ : FormState) : Prop :=
  (∀ o₁ o₂ : SubmitResult,
      submitForm validate o₁ s₀ = submitForm validate o₂ s₀) ∧
  ∀ o : SubmitResult,
    (submitForm validate o s₀).fields =
      s₀.fields.map (fun g =>
        match validate g.name g.value with
        | some e => if e == "" then g else { g with error := some e }
        | none => g) ∧
    hasSubmitError (submitForm validate o s₀) = false ∧
    (submitForm validate o s₀).isSubmitting = false

/-- What the thrown-callback claim asserts when the whole form validates:
the submit error is the thrown message of an Error (and the fallback
string for a non-Error value), the field entries are untouched, and
submitting has been cleared. -/
def submitThrownProp (validate : String → Value → Option String)
    (t : Thrown) (s₀ : FormState) : Prop :=
  (submitForm validate (.threw t) s₀).submitError = some (thrownMessage t) ∧
  (∀ m, t = .errorWithMessage m →
      (submitForm validate (.threw t) s₀).submitError = some m) ∧
  (t = .nonErrorValue →
      (submitForm validate (.threw t) s₀).submitError =
        some "Submission failed") ∧
  (submitForm validate (.threw t) s₀).fields = s₀.fields ∧
  (submitForm validate (.threw t) s₀).isSubmitting = false

/-- What the reset claim asserts of a state, checked against both
reducers of the repository: every field of the reset state is untouched,
empty and error-free, the submission flags and error are cleared, and
the variant reducer moreover keeps every entry in place. -/
def resetFormProp (s : FormState) : Prop :=
  (∀ f ∈ (formReducer s .resetForm).fields,
      f.touched = false ∧ f.value = .str "" ∧ f.error = none) ∧
  (formReducer s .resetForm).isSubmitting = false ∧
  (formReducer s .resetForm).isSubmitted = false ∧
  (formReducer s .resetForm).submitError = none ∧
  (∀ f ∈ (formReducerAlt s .resetForm).fields,
      f.touched = false ∧ f.value = .str "" ∧ f.error = none) ∧
  (formReducerAlt s .resetForm).isSubmitting = false ∧
  (formReducerAlt s .resetForm).isSubmitted = false ∧
  (formReducerAlt s .resetForm).submitError = none ∧
  (formReducerAlt s .resetForm).fields.length = s.fields.length

/-- A concrete schema: field a is required (as a string), every other
field is always valid. -/
def validateRequiredA : String → Value → Option String :=
  fun name value =>
    if name == "a" then
      match value with
      | .str s => if s == "" then some "This field is required" else none
      | .bool b => if b then none else some "This field is required"
    else none

/-- A concrete state refuting the original claim: field a is empty and
invalid, field b is valid but still carries a stale error attached
earlier, which submitForm never clears. -/
def staleErrorState : FormState :=
  { fields :=
      [{ name := "a", value := .str "", error := none, touched := true },
       { name := "b", value := .str "ok", error := some "stale",
         touched := true }],
    isSubmitting := false, isSubmitted := false, submitError := none }

/-- A concrete two-field state with one invalid and one valid field and
no prior errors, for the amended submit-validation witness. -/
def invalidAState : FormState :=
  { fields :=
      [{ name := "a", value := .str "", error := none, touched := false },
       { name := "b", value := .str "fine", error := none,
         touched := false }],
    isSubmitting := false, isSubmitted := false, submitError := none }

/-- A concrete fully valid state for the thrown-callback witness. -/
def validState : FormState :=
  { fields :=
      [{ name := "a", value := .str "hello", error := none,
         touched := true },
       { name := "terms", value := .bool true, error := none,
         touched := true }],
    isSubmitting := false, isSubmitted := false, submitError := none }

/-- A concrete state exercising the reset witness: touched fields with
values, errors and submission state set. -/
def dirtyState : FormState :=
  { fields :=
      [{ name := "a", value := .str "typed", error := some "bad",
         touched := true },
       { name := "terms", value := .bool true, error := none,
         touched := true }],
    isSubmitting := true, isSubmitted := true, submitError := some "boom" }

end DynamicForm

namespace DataGrid

/-- A guarded filter stage: run the filter only when the guard holds. -/
def condFilter (c : Prop) [Decidable c] (p : DataItem → Bool)
    (l : List DataItem) : List DataItem :=
  if c then l.filter p else l

/-- The single acceptance test of the search stage. -/
def searchKeep (cfg : FilterConfig) (item : DataItem) : Bool :=
  cfg.search == "" || searchMatch cfg.search item

/-- The single acceptance test of the department stage. -/
def departmentKeep (cfg : FilterConfig) (item : DataItem) : Bool :=
  cfg.department == "" || item.department == cfg.department

/-- The single acceptance test of the status stage. -/
def statusKeep (cfg : FilterConfig) (item : DataItem) : Bool :=
  cfg.status == "" || item.status == cfg.status

/-- The single acceptance test of the minimum-salary stage. -/
def minSalaryKeep (cfg : FilterConfig) (item : DataItem) : Bool :=
  decide (cfg.minSalary ≤ 0) || decide (cfg.minSalary ≤ item.salary)

/-- The single acceptance test of the maximum-salary stage. -/
def maxSalaryKeep (cfg : FilterConfig) (item : DataItem) : Bool :=
  decide (200000 ≤ cfg.maxSalary) || decide (item.salary ≤ cfg.maxSalary)

/-- The filter configuration the scenario reaches: defaults with the
status filter set to active. -/
def scenarioCfg : FilterConfig :=
  { search := "", department := "", status := "active", minSalary := 0,
    maxSalary := 200000 }
theorem searchPass_eq_filter (cfg : FilterConfig) (l : List DataItem) :
    searchPass cfg l = l.filter (searchKeep cfg) := by
  unfold searchPass searchKeep
  by_cases h : cfg.search = ""
  · simp [h]
  · have hb : (cfg.search == "") = false := by simp [h]
    simp [h, hb]

theorem departmentPass_eq_filter (cfg : FilterConfig) (l : List DataItem) :
    departmentPass cfg l = l.filter (departmentKeep cfg) := by
  unfold departmentPass departmentKeep
  by_cases h : cfg.department = ""
  · simp [h]
  · have hb : (cfg.department == "") = false := by simp [h]
    simp [h, hb]

theorem statusPass_eq_filter (cfg : FilterConfig) (l : List DataItem) :
    statusPass cfg l = l.filter (statusKeep cfg) := by
  unfold statusPass statusKeep
  by_cases h : cfg.status = ""
  · simp [h]
  · have hb : (cfg.status == "") = false := by simp [h]
    simp [h, hb]

theorem minSalaryPass_eq_filter (cfg : FilterConfig) (l : List DataItem) :
    minSalaryPass cfg l = l.filter (minSalaryKeep cfg) := by
  unfold minSalaryPass minSalaryKeep
  by_cases h : cfg.minSalary > 0
  · have h0 : ¬ cfg.minSalary ≤ 0 := not_le.mpr h
    simp [h, h0, ge_iff_le]
  · have h0 : cfg.minSalary ≤ 0 := not_lt.mp h
    simp [h, h0]

theorem maxSalaryPass_eq_filter (cfg : FilterConfig) (l : List DataItem) :
    maxSalaryPass cfg l = l.filter (maxSalaryKeep cfg) := by
  unfold maxSalaryPass maxSalaryKeep
  by_cases h : cfg.maxSalary < 200000
  · have h0 : ¬ (200000 : Int) ≤ cfg.maxSalary := not_le.mpr h
    simp [h, h0]
  · have h0 : (200000 : Int) ≤ cfg.maxSalary := not_lt.mp h
    simp [h, h0]

theorem applyFilters_eq_passes (cfg : FilterConfig) (l : List DataItem) :
    applyFilters cfg l =
      maxSalaryPass cfg (minSalaryPass cfg (statusPass cfg
        (departmentPass cfg (searchPass cfg l)))) := rfl

theorem keptByFilters_eq (cfg : FilterConfig) (item : DataItem) :
    keptByFilters cfg item =
      (searchKeep cfg item && (departmentKeep cfg item &&
        (statusKeep cfg item && (minSalaryKeep cfg item &&
          maxSalaryKeep cfg item)))) := by
  simp only [keptByFilters, searchKeep, departmentKeep, statusKeep,
    minSalaryKeep, maxSalaryKeep, Bool.and_assoc]

theorem condFilter_comm (c₁ c₂ : Prop) [Decidable c₁] [Decidable c₂]
    (p₁ p₂ : DataItem → Bool) (l : List DataItem) :
    condFilter c₁ p₁ (condFilter c₂ p₂ l) =
      condFilter c₂ p₂ (condFilter c₁ p₁ l) := by
  unfold condFilter
  by_cases h₁ : c₁ <;> by_cases h₂ : c₂ <;> simp [h₁, h₂]
  exact List.filter_congr (fun x _ => by rw [Bool.and_comm])

theorem searchPass_eq_condFilter (cfg : FilterConfig) :
    searchPass cfg =
      condFilter (cfg.search ≠ "")
        (fun item => searchMatch cfg.search item) := rfl

theorem departmentPass_eq_condFilter (cfg : FilterConfig) :
    departmentPass cfg =
      condFilter (cfg.department ≠ "")
        (fun item => item.department == cfg.department) := rfl

theorem statusPass_eq_condFilter (cfg : FilterConfig) :
    statusPass cfg =
      condFilter (cfg.status ≠ "")
        (fun item => item.status == cfg.status) := rfl

theorem minSalaryPass_eq_condFilter (cfg : FilterConfig) :
    minSalaryPass cfg =
      condFilter (cfg.minSalary > 0)
        (fun item => item.salary ≥ cfg.minSalary) := rfl

theorem maxSalaryPass_eq_condFilter (cfg : FilterConfig) :
    maxSalaryPass cfg =
      condFilter (cfg.maxSalary < 200000)
        (fun item => item.salary ≤ cfg.maxSalary) := rfl

theorem passes_commute (cfg : FilterConfig) :
    ∀ f ∈ filterPasses cfg, ∀ g ∈ filterPasses cfg,
      ∀ l : List DataItem, f (g l) = g (f l) := by
  have hshape : ∀ f ∈ filterPasses cfg, ∃ (c : Prop) (inst : Decidable c)
      (p : DataItem → Bool), f = @condFilter c inst p := by
    intro f hf
    simp only [filterPasses, List.mem_cons, List.not_mem_nil, or_false] at hf
    rcases hf with rfl | rfl | rfl | rfl | rfl
    · exact ⟨_, _, _, searchPass_eq_condFilter cfg⟩
    · exact ⟨_, _, _, departmentPass_eq_condFilter cfg⟩
    · exact ⟨_, _, _, statusPass_eq_condFilter cfg⟩
    · exact ⟨_, _, _, minSalaryPass_eq_condFilter cfg⟩
    · exact ⟨_, _, _, maxSalaryPass_eq_condFilter cfg⟩
  intro f hf g hg l
  obtain ⟨c₁, i₁, p₁, rfl⟩ := hshape f hf
  obtain ⟨c₂, i₂, p₂, rfl⟩ := hshape g hg
  exact condFilter_comm c₁ c₂ p₁ p₂ l

theorem foldl_eq_of_perm_of_comm {α β : Type _} (f : β → α → β)
    {l₁ l₂ : List α} (h : l₁.Perm l₂) :
    (∀ a ∈ l₁, ∀ b ∈ l₁, ∀ x, f (f x a) b = f (f x b) a) →
    ∀ x, l₁.foldl f x = l₂.foldl f x := by
  induction h with
  | nil => intro _ _; rfl
  | cons a p ih =>
    intro hc x
    simp only [List.foldl_cons]
    exact ih (fun u hu v hv y =>
      hc u (List.mem_cons_of_mem _ hu) v (List.mem_cons_of_mem _ hv) y)
      (f x a)
  | swap a b l =>
    intro hc x
    simp only [List.foldl_cons]
    rw [hc a (by simp) b (by simp)]
  | trans p q ih₁ ih₂ =>
    intro hc x
    rw [ih₁ hc x]
    exact ih₂ (fun u hu v hv y =>
      hc u (p.symm.subset hu) v (p.symm.subset hv) y) x

theorem runPasses_filterPasses (cfg : FilterConfig) (l : List DataItem) :
    runPasses (filterPasses cfg) l = applyFilters cfg l := rfl

theorem applyFilters_default (l : List DataItem) :
    applyFilters defaultFilterConfig l = l := by
  simp [applyFilters, defaultFilterConfig]

theorem paginate_window (l : List DataItem) (p k : Nat) :
    paginate l k p = (l.drop ((k - 1) * p)).take p := by
  simp [paginate, jsSlice]

theorem le_ceilDiv_iff {p k n : Nat} (hp : 0 < p) (hk : 1 ≤ k) :
    k ≤ ceilDiv n p ↔ (k - 1) * p < n := by
  obtain ⟨m, rfl⟩ : ∃ m, k = m + 1 := ⟨k - 1, by omega⟩
  unfold ceilDiv
  rw [Nat.le_div_iff_mul_le hp, Nat.add_sub_cancel, Nat.succ_mul]
  have := Nat.mul_le_mul_right p (Nat.zero_le m)
  omega

theorem paginate_length (l : List DataItem) (p k : Nat) :
    (paginate l k p).length = min p (l.length - (k - 1) * p) := by
  simp [paginate_window, List.length_take, List.length_drop]

theorem paginate_ne_nil_iff {l : List DataItem} {p k : Nat}
    (hp : 0 < p) (hk : 1 ≤ k) :
    paginate l k p ≠ [] ↔ k ≤ ceilDiv l.length p := by
  rw [Ne, ← List.length_eq_zero, paginate_length,
    le_ceilDiv_iff hp hk]
  omega

theorem paginate_full_of_lt {l : List DataItem} {p k : Nat}
    (hp : 0 < p) (hk : 1 ≤ k) (hlt : k < ceilDiv l.length p) :
    (paginate l k p).length = p := by
  have h2 : k + 1 ≤ ceilDiv l.length p := hlt
  rw [le_ceilDiv_iff hp (by omega)] at h2
  obtain ⟨m, rfl⟩ : ∃ m, k = m + 1 := ⟨k - 1, by omega⟩
  rw [paginate_length]
  simp only [Nat.add_sub_cancel] at h2 ⊢
  rw [Nat.succ_mul] at h2
  omega

theorem paginate_length_le (l : List DataItem) (p k : Nat) :
    (paginate l k p).length ≤ p := by
  rw [paginate_length]; omega

theorem paginate_shift (l : List DataItem) (p i : Nat) :
    paginate l (i + 2) p = paginate (l.drop p) (i + 1) p := by
  have e1 : i + 2 - 1 = i + 1 := by omega
  have e2 : i + 1 - 1 = i := by omega
  simp only [paginate_window, e1, e2, List.drop_drop, Nat.succ_mul]
  congr 2
  ring

theorem ceilDiv_drop {p : Nat} (hp : 0 < p) {l : List DataItem} {t : Nat}
    (h : ceilDiv l.length p = t + 1) :
    ceilDiv (l.drop p).length p = t := by
  rw [List.length_drop]
  rcases Nat.eq_zero_or_pos l.length with h0 | h0
  · exfalso
    rw [h0] at h
    unfold ceilDiv at h
    rw [Nat.zero_add, Nat.div_eq_of_lt (by omega)] at h
    omega
  · have hsplit : l.length + p - 1 = (l.length - 1) + p := by omega
    unfold ceilDiv at h ⊢
    rw [hsplit, Nat.add_div_right _ hp] at h
    rcases Nat.lt_or_ge l.length p with hlt | hge
    · have hz : l.length - p = 0 := by omega
      rw [hz, Nat.zero_add, Nat.div_eq_of_lt (by omega)]
      have h2 : (l.length - 1) / p = 0 := Nat.div_eq_of_lt (by omega)
      rw [h2] at h
      omega
    · have hsplit2 : l.length - p + p - 1 = l.length - 1 := by omega
      rw [hsplit2]
      exact Nat.add_right_cancel h

theorem paginate_flatten {p : Nat} (hp : 0 < p) :
    ∀ (t : Nat) (l : List DataItem), ceilDiv l.length p = t →
      ((List.range t).map (fun i => paginate l (i + 1) p)).flatten = l := by
  intro t
  induction t with
  | zero =>
    intro l h
    have h0 : l.length = 0 := by
      by_contra hne
      have h1 : l.length + p - 1 = (l.length - 1) + p := by omega
      unfold ceilDiv at h
      rw [h1, Nat.add_div_right _ hp] at h
      exact Nat.succ_ne_zero _ h
    rw [List.length_eq_zero.mp h0]
    rfl
  | succ t ih =>
    intro l h
    rw [List.range_succ_eq_map]
    simp only [List.map_cons, List.map_map, List.flatten_cons]
    have h1 : paginate l (0 + 1) p = l.take p := by
      simp [paginate_window]
    have h2 : ((List.range t).map
        ((fun i => paginate l (i + 1) p) ∘ Nat.succ)).flatten = l.drop p := by
      have hcomp : ((fun i => paginate l (i + 1) p) ∘ Nat.succ) =
          fun i => paginate (l.drop p) (i + 1) p := by
        funext i
        show paginate l (i + 1 + 1) p = _
        exact paginate_shift l p i
      rw [hcomp]
      exact ih (l.drop p) (ceilDiv_drop hp h)
    rw [h1, h2, List.take_append_drop]

theorem applyFiltersAndSort_totalPagesLaw (s : GridState) :
    totalPagesLaw (applyFiltersAndSort s) := rfl

theorem strCmp_swap (s t : String) : strCmp t s = -strCmp s t := by
  rcases lt_trichotomy s t with h | rfl | h
  · simp [strCmp, h, lt_asymm h]
  · simp [strCmp, lt_irrefl]
  · simp [strCmp, h, lt_asymm h]

theorem strCmp_le_zero_iff (s t : String) : strCmp s t ≤ 0 ↔ s ≤ t := by
  rcases lt_trichotomy s t with h | rfl | h
  · simp [strCmp, h, le_of_lt h]
  · simp [strCmp, lt_irrefl]
  · simp [strCmp, h, lt_asymm h, not_le.mpr h]

theorem cmpItems_desc_eq (k : SortKey) (a b : DataItem) :
    cmpItems k .desc a b = cmpItems k .asc b a := by
  cases k <;> simp only [cmpItems, keyVal] <;>
    first
      | rfl
      | exact (strCmp_swap _ _).symm

theorem cmpItems_asc_total (k : SortKey) (a b : DataItem) :
    cmpItems k .asc a b ≤ 0 ∨ cmpItems k .asc b a ≤ 0 := by
  cases k <;> simp only [cmpItems, keyVal] <;>
    first
      | omega
      | (rw [strCmp_le_zero_iff, strCmp_le_zero_iff]; exact le_total _ _)

theorem cmpItems_asc_trans (k : SortKey) (a b c : DataItem) :
    cmpItems k .asc a b ≤ 0 → cmpItems k .asc b c ≤ 0 →
      cmpItems k .asc a c ≤ 0 := by
  cases k <;> simp only [cmpItems, keyVal] <;>
    first
      | omega
      | (rw [strCmp_le_zero_iff, strCmp_le_zero_iff, strCmp_le_zero_iff]
         exact le_trans)

theorem cmpItems_asc_antisymm (k : SortKey) (a b : DataItem) :
    cmpItems k .asc a b ≤ 0 → cmpItems k .asc b a ≤ 0 →
      keyVal k a = keyVal k b := by
  cases k <;> simp only [cmpItems, keyVal] <;>
    first
      | (intro h₁ h₂
         rw [strCmp_le_zero_iff] at h₁ h₂
         rw [le_antisymm h₁ h₂])
      | (intro h₁ h₂
         congr 1
         omega)

theorem eq_of_perm_of_pairwise {α : Type _} (r : α → α → Prop) :
    ∀ {l₁ l₂ : List α}, l₁.Perm l₂ →
      (∀ a ∈ l₁, ∀ b ∈ l₁, r a b → r b a → a = b) →
      l₁.Pairwise r → l₂.Pairwise r → l₁ = l₂ := by
  intro l₁
  induction l₁ with
  | nil =>
    intro l₂ p _ _ _
    exact (p.symm.eq_nil).symm ▸ rfl
  | cons a t₁ ih =>
    intro l₂ p hanti hp₁ hp₂
    cases l₂ with
    | nil => exact absurd p.eq_nil (List.cons_ne_nil a t₁)
    | cons b t₂ =>
      have hab : a = b := by
        by_contra hne
        have hat₂ : a ∈ t₂ := by
          have := p.subset (List.mem_cons_self a t₁)
          rcases List.mem_cons.mp this with h | h
          · exact absurd h hne
          · exact h
        have hbt₁ : b ∈ t₁ := by
          have := p.symm.subset (List.mem_cons_self b t₂)
          rcases List.mem_cons.mp this with h | h
          · exact absurd h.symm hne
          · exact h
        have r₁ : r a b := (List.pairwise_cons.mp hp₁).1 b hbt₁
        have r₂ : r b a := (List.pairwise_cons.mp hp₂).1 a hat₂
        exact hne (hanti a (List.mem_cons_self a t₁) b
          (List.mem_cons_of_mem a hbt₁) r₁ r₂)
      subst hab
      have p' : t₁.Perm t₂ := p.cons_inv
      have hanti' : ∀ x ∈ t₁, ∀ y ∈ t₁, r x y → r y x → x = y :=
        fun x hx y hy => hanti x (List.mem_cons_of_mem a hx) y
          (List.mem_cons_of_mem a hy)
      rw [ih p' hanti' (List.pairwise_cons.mp hp₁).2
        (List.pairwise_cons.mp hp₂).2]

theorem sorted_take_drop {α : Type _} {r : α → α → Prop} {l : List α}
    (hp : l.Pairwise r) (n : Nat) :
    ∀ y ∈ l.take n, ∀ x ∈ l.drop n, r y x := by
  have h := List.take_append_drop n l
  rw [← h] at hp
  exact (List.pairwise_append.mp hp).2.2

theorem insertionSort_desc_pairwise (k : SortKey) (l : List DataItem) :
    (List.insertionSort (fun a b => cmpItems k .desc a b ≤ 0) l).Pairwise
      (fun a b => cmpItems k .desc a b ≤ 0) := by
  haveI : IsTotal DataItem (fun a b => cmpItems k .desc a b ≤ 0) :=
    ⟨fun a b => by
      simp only [cmpItems_desc_eq]
      exact cmpItems_asc_total k b a⟩
  haveI : IsTrans DataItem (fun a b => cmpItems k .desc a b ≤ 0) :=
    ⟨fun a b c h₁ h₂ => by
      simp only [cmpItems_desc_eq] at h₁ h₂ ⊢
      exact cmpItems_asc_trans k c b a h₂ h₁⟩
  exact List.sorted_insertionSort _ l

theorem insertionSort_asc_pairwise (k : SortKey) (l : List DataItem) :
    (List.insertionSort (fun a b => cmpItems k .asc a b ≤ 0) l).Pairwise
      (fun a b => cmpItems k .asc a b ≤ 0) := by
  haveI : IsTotal DataItem (fun a b => cmpItems k .asc a b ≤ 0) :=
    ⟨fun a b => cmpItems_asc_total k a b⟩
  haveI : IsTrans DataItem (fun a b => cmpItems k .asc a b ≤ 0) :=
    ⟨fun a b c => cmpItems_asc_trans k a b c⟩
  exact List.sorted_insertionSort _ l

theorem sortItems_desc_eq_reverse (k : SortKey) (l : List DataItem)
    (hinj : ∀ a ∈ l, ∀ b ∈ l, keyVal k a = keyVal k b → a = b) :
    sortItems (some { key := k, direction := .desc }) l =
      (sortItems (some { key := k, direction := .asc }) l).reverse := by
  show List.insertionSort (fun a b => cmpItems k .desc a b ≤ 0) l =
    (List.insertionSort (fun a b => cmpItems k .asc a b ≤ 0) l).reverse
  have permD :=
    List.perm_insertionSort (fun a b => cmpItems k .desc a b ≤ 0) l
  have permA :=
    List.perm_insertionSort (fun a b => cmpItems k .asc a b ≤ 0) l
  have pairD' :
      (List.insertionSort (fun a b => cmpItems k .desc a b ≤ 0) l).Pairwise
        (fun a b => cmpItems k .asc b a ≤ 0) :=
    (insertionSort_desc_pairwise k l).imp
      (fun h => by rwa [cmpItems_desc_eq] at h)
  have pairR :
      ((List.insertionSort (fun a b => cmpItems k .asc a b ≤ 0) l).reverse).Pairwise
        (fun a b => cmpItems k .asc b a ≤ 0) :=
    List.pairwise_reverse.mpr (insertionSort_asc_pairwise k l)
  have perm :
      (List.insertionSort (fun a b => cmpItems k .desc a b ≤ 0) l).Perm
        ((List.insertionSort (fun a b => cmpItems k .asc a b ≤ 0) l).reverse) :=
    permD.trans (permA.symm.trans
      (List.reverse_perm
        (List.insertionSort (fun a b => cmpItems k .asc a b ≤ 0) l)).symm)
  have hanti :
      ∀ a ∈ List.insertionSort (fun a b => cmpItems k .desc a b ≤ 0) l,
      ∀ b ∈ List.insertionSort (fun a b => cmpItems k .desc a b ≤ 0) l,
        cmpItems k .asc b a ≤ 0 → cmpItems k .asc a b ≤ 0 → a = b := by
    intro a ha b hb h₁ h₂
    exact hinj a (permD.subset ha) b (permD.subset hb)
      (cmpItems_asc_antisymm k a b h₂ h₁)
  exact eq_of_perm_of_pairwise (fun a b => cmpItems k .asc b a ≤ 0)
    perm hanti pairD' pairR


theorem applyFilters_eq_filter (cfg : FilterConfig) (l : List DataItem) :
    applyFilters cfg l = l.filter (keptByFilters cfg) := by
  rw [applyFilters_eq_passes, searchPass_eq_filter, departmentPass_eq_filter,
    statusPass_eq_filter, minSalaryPass_eq_filter, maxSalaryPass_eq_filter,
    List.filter_filter, List.filter_filter, List.filter_filter,
    List.filter_filter]
  refine List.filter_congr (fun item _ => ?_)
  rw [keptByFilters_eq]
  cases searchKeep cfg item <;> cases departmentKeep cfg item <;>
    cases statusKeep cfg item <;> cases minSalaryKeep cfg item <;>
    cases maxSalaryKeep cfg item <;> rfl

theorem keptByFilters_scenarioCfg (x : DataItem) :
    keptByFilters scenarioCfg x = (x.status == "active") := by
  simp [keptByFilters, scenarioCfg]

theorem scenarioAfterSort_filteredItems (items : List DataItem) :
    (scenarioAfterSort items).filteredItems =
      List.insertionSort (fun a b => cmpItems .salary .desc a b ≤ 0)
        (items.filter (fun x => x.status == "active")) := by
  show sortItems (some { key := .salary, direction := .desc })
      (applyFilters (mergeFilterConfig defaultFilterConfig
        { status := some "active" }) items) = _
  have hcfg : mergeFilterConfig defaultFilterConfig
      { status := some "active" } = scenarioCfg := rfl
  rw [hcfg, applyFilters_eq_filter,
    List.filter_congr (fun x _ => keptByFilters_scenarioCfg x)]
  rfl

end DataGrid

namespace DynamicForm

theorem errPatch_of_none {validate : String → Value → Option String}
    {f : FormField} (h : validate f.name f.value = none) (g : FormField) :
    errPatch validate f g = g := by
  simp [errPatch, h]

theorem errPatch_of_empty {validate : String → Value → Option String}
    {f : FormField} {e : String} (h : validate f.name f.value = some e)
    (he : (e == "") = true) (g : FormField) :
    errPatch validate f g = g := by
  simp [errPatch, h, he]

theorem errPatch_of_other_name {validate : String → Value → Option String}
    {f g : FormField} (h : f.name ≠ g.name) :
    errPatch validate f g = g := by
  have hb : (g.name == f.name) = false :=
    beq_eq_false_iff_ne.mpr (Ne.symm h)
  unfold errPatch
  cases hv : validate f.name f.value with
  | none => rfl
  | some e =>
    dsimp only
    split
    · rfl
    · simp [hb]

theorem validatedField (validate : String → Value → Option String)
    (g : FormField) :
    (match validate g.name g.value with
     | some e => if e == "" then g else { g with error := some e }
     | none => g).name = g.name := by
  cases hv : validate g.name g.value with
  | none => rfl
  | some e =>
    dsimp only
    split <;> rfl

theorem errPatch_self (validate : String → Value → Option String)
    (g : FormField) :
    errPatch validate g g =
      (match validate g.name g.value with
       | some e => if e == "" then g else { g with error := some e }
       | none => g) := by
  cases hv : validate g.name g.value with
  | none => simp [errPatch, hv]
  | some e => simp [errPatch, hv]

theorem submit_step_eq (validate : String → Value → Option String)
    (s : FormState) (f : FormField) :
    (match validate f.name f.value with
     | some e =>
       if e == "" then s else formReducer s (.setFieldError f.name e)
     | none => s) =
    { s with fields := s.fields.map (errPatch validate f) } := by
  cases hv : validate f.name f.value with
  | none =>
    rw [List.map_congr_left (fun g _ => errPatch_of_none hv g), List.map_id']
  | some e =>
    dsimp only
    by_cases he : (e == "") = true
    · rw [if_pos he,
        List.map_congr_left (fun g _ => errPatch_of_empty hv he g),
        List.map_id']
    · have he' : (e == "") = false := by simpa using he
      rw [if_neg he]
      show { s with fields := s.fields.map (fun g =>
          if g.name == f.name then { g with error := some e } else g) } =
        { s with fields := s.fields.map (errPatch validate f) }
      have hfun : ∀ g ∈ s.fields,
          (if g.name == f.name then { g with error := some e } else g) =
            errPatch validate f g := by
        intro g _
        simp [errPatch, hv, he']
      rw [List.map_congr_left hfun]

theorem submit_fold_eq (validate : String → Value → Option String) :
    ∀ (src : List FormField) (s : FormState),
    src.foldl (fun s f =>
      match validate f.name f.value with
      | some e =>
        if e == "" then s else formReducer s (.setFieldError f.name e)
      | none => s) s =
    { s with fields :=
        src.foldl (fun fs f => fs.map (errPatch validate f)) s.fields } := by
  intro src
  induction src with
  | nil => intro s; rfl
  | cons f src ih =>
    intro s
    rw [List.foldl_cons, List.foldl_cons, submit_step_eq, ih]

theorem fold_map_eval (validate : String → Value → Option String) :
    ∀ (src : List FormField) (fs : List FormField),
    src.foldl (fun fs f => fs.map (errPatch validate f)) fs =
      fs.map (fun g => src.foldl (fun g f => errPatch validate f g) g) := by
  intro src
  induction src with
  | nil => intro fs; exact (List.map_id' fs).symm
  | cons f src ih =>
    intro fs
    rw [List.foldl_cons, ih, List.map_map]
    rfl

theorem inner_fold_skip (validate : String → Value → Option String) :
    ∀ (src : List FormField) (x : FormField),
    (∀ f ∈ src, f.name ≠ x.name) →
    src.foldl (fun g f => errPatch validate f g) x = x := by
  intro src
  induction src with
  | nil => intro x _; rfl
  | cons f src ih =>
    intro x hne
    rw [List.foldl_cons,
      errPatch_of_other_name (hne f (List.mem_cons_self f src))]
    exact ih x (fun g hg => hne g (List.mem_cons_of_mem f hg))

theorem inner_fold_eval (validate : String → Value → Option String)
    (g : FormField) :
    ∀ (src : List FormField), (src.map FormField.name).Nodup → g ∈ src →
    src.foldl (fun h f => errPatch validate f h) g =
      (match validate g.name g.value with
       | some e => if e == "" then g else { g with error := some e }
       | none => g) := by
  intro src
  induction src with
  | nil => intro _ hg; exact absurd hg (List.not_mem_nil g)
  | cons f src ih =>
    intro hnod hg
    have hnotin : f.name ∉ src.map FormField.name :=
      (List.nodup_cons.mp (by simpa using hnod)).1
    rw [List.foldl_cons]
    rcases List.mem_cons.mp hg with rfl | hg₂
    · rw [errPatch_self]
      apply inner_fold_skip
      intro f₂ hf₂ heq
      rw [validatedField] at heq
      exact hnotin (heq ▸ List.mem_map_of_mem FormField.name hf₂)
    · have hne : f.name ≠ g.name := by
        intro heq
        exact hnotin (heq ▸ List.mem_map_of_mem FormField.name hg₂)
      rw [errPatch_of_other_name hne]
      exact ih (by simpa using (List.nodup_cons.mp (by simpa using hnod)).2)
        hg₂

theorem submit_fold_no_errors (validate : String → Value → Option String) :
    ∀ (src : List FormField) (s : FormState),
    (∀ f ∈ src, errTruthy (validate f.name f.value) = false) →
    src.foldl (fun s f =>
      match validate f.name f.value with
      | some e =>
        if e == "" then s else formReducer s (.setFieldError f.name e)
      | none => s) s = s := by
  intro src
  induction src with
  | nil => intro s _; rfl
  | cons f src ih =>
    intro s h
    rw [List.foldl_cons]
    have hf := h f (List.mem_cons_self f src)
    cases hv : validate f.name f.value with
    | none =>
      dsimp only
      exact ih s (fun g hg => h g (List.mem_cons_of_mem f hg))
    | some e =>
      rw [hv, errTruthy] at hf
      have he : (e == "") = true := by simpa using hf
      dsimp only
      rw [if_pos he]
      exact ih s (fun g hg => h g (List.mem_cons_of_mem f hg))

theorem submitForm_hasErrors_state (validate : String → Value → Option String)
    (s₀ : FormState) (hnodup : (s₀.fields.map FormField.name).Nodup)
    (hasErr : s₀.fields.any (fun f => errTruthy (validate f.name f.value))
      = true) (o : SubmitResult) :
    submitForm validate o s₀ =
      { fields := s₀.fields.map (fun g =>
          match validate g.name g.value with
          | some e => if e == "" then g else { g with error := some e }
          | none => g),
        isSubmitting := false, isSubmitted := s₀.isSubmitted,
        submitError := some "" } := by
  simp only [submitForm, hasErr, if_true]
  rw [submit_fold_eq, fold_map_eval]
  have hfields : (formReducer (formReducer s₀ (.setSubmitting true))
      (.setSubmitError "")).fields = s₀.fields := rfl
  rw [hfields,
    List.map_congr_left (fun g hg =>
      inner_fold_eval validate g s₀.fields hnodup hg)]
  rfl

theorem submitForm_ok_state (validate : String → Value → Option String)
    (s₀ : FormState)
    (h : ∀ f ∈ s₀.fields, errTruthy (validate f.name f.value) = false) :
    submitForm validate .ok s₀ =
      { fields := s₀.fields, isSubmitting := false, isSubmitted := true,
        submitError := some "" } := by
  have hany : s₀.fields.any (fun f => errTruthy (validate f.name f.value))
      = false := List.any_eq_false.mpr (fun f hf => by simp [h f hf])
  simp only [submitForm, hany, Bool.false_eq_true, if_false]
  rw [submit_fold_no_errors validate s₀.fields _ h]
  rfl

theorem submitForm_thrown_state (validate : String → Value → Option String)
    (s₀ : FormState)
    (h : ∀ f ∈ s₀.fields, errTruthy (validate f.name f.value) = false)
    (t : Thrown) :
    submitForm validate (.threw t) s₀ =
      { fields := s₀.fields, isSubmitting := false,
        isSubmitted := s₀.isSubmitted,
        submitError := some (thrownMessage t) } := by
  have hany : s₀.fields.any (fun f => errTruthy (validate f.name f.value))
      = false := List.any_eq_false.mpr (fun f hf => by simp [h f hf])
  simp only [submitForm, hany, Bool.false_eq_true, if_false]
  rw [submit_fold_no_errors validate s₀.fields _ h]
  rfl

end DynamicForm

namespace DataGrid

/-- C2 (amended): for every list of items and every filter configuration,
applyFiltersAndSort keeps exactly the items satisfying the conjunction of
the five stage predicates, the lower salary bound being skipped exactly
when minSalary is nonpositive and the upper bound exactly when maxSalary
is at least 200000 (the source guards; the claim said skipped exactly at
the sentinel values 0 and 200000). -/
theorem applyFilters_keeps_exactly (cfg : FilterConfig) (l : List DataItem) :
    applyFilters cfg l = l.filter (keptByFilters cfg) :=
  applyFilters_eq_filter cfg l

/-- C2 counterexample: with the upper bound set beyond the sentinel
(maxSalary 300000) the source skips the upper salary stage and keeps a
350000 salary record, while the conjunction claimed by the spec (skip
exactly at 200000) rejects it. -/
theorem applyFilters_sentinel_cx :
    applyFilters cfgBeyondSentinel [highEarner] = [highEarner] ∧
    List.filter (claimedKeptByFilters cfgBeyondSentinel) [highEarner]
      = [] := by decide

/-- C2 witness: the amended characterization evaluated at a concrete
configuration and item list. -/
theorem applyFilters_keeps_exactly_witness :
    applyFilters cfgActive itemsSmall =
      itemsSmall.filter (keptByFilters cfgActive) :=
  applyFilters_keeps_exactly cfgActive itemsSmall

/-- C8: applying the five filter stages in any order (any permutation of
the pass list) yields the same resulting list, hence the same set, as
the fixed order of the implementation. -/
theorem filter_order_irrelevant (cfg : FilterConfig) (l : List DataItem)
    (ps : List (List DataItem → List DataItem))
    (h : ps.Perm (filterPasses cfg)) :
    runPasses ps l = applyFilters cfg l := by
  have hc : ∀ a ∈ ps, ∀ b ∈ ps, ∀ x : List DataItem,
      b (a x) = a (b x) := by
    intro a ha b hb x
    exact passes_commute cfg b (h.subset hb) a (h.subset ha) x
  have hfold := foldl_eq_of_perm_of_comm (fun l f => f l) h hc l
  rw [runPasses, hfold]
  rfl

/-- C8 witness: swapping the first two stages at a concrete configuration
and item list. -/
theorem filter_order_irrelevant_witness :
    runPasses [departmentPass cfgActive, searchPass cfgActive,
      statusPass cfgActive, minSalaryPass cfgActive,
      maxSalaryPass cfgActive] itemsSmall =
      applyFilters cfgActive itemsSmall :=
  filter_order_irrelevant cfgActive itemsSmall _
    (List.Perm.swap (searchPass cfgActive) (departmentPass cfgActive) _)

/-- C3 counterexample: one setItems with an empty list, executed from the
initial state, leaves currentPage at 1 while totalPages is recomputed to
0, so the claimed invariant currentPage between 1 and totalPages fails
after a store operation. -/
theorem currentPage_invariant_cx :
    (applyOps initialGridState [.setItems []]).currentPage = 1 ∧
    (applyOps initialGridState [.setItems []]).totalPages = 0 ∧
    ¬ ((applyOps initialGridState [.setItems []]).currentPage ≤
        (applyOps initialGridState [.setItems []]).totalPages) := by decide

/-- C3 (amended): after any store operation that ends in
applyFiltersAndSort (every operation of the claim except setCurrentPage),
and for a positive page size, totalPages equals the ceiling of the
filtered count over the page size; the currentPage bounds of the original
claim do not hold because setCurrentPage stores any page unclamped and an
empty filtered list makes totalPages 0. -/
theorem totalPages_recompute (s : GridState) (op : GridOp)
    (hop : recomputes op)
    (hpp : 0 < (applyOp op s).itemsPerPage) :
    totalPagesLaw (applyOp op s) := by
  cases op with
  | setCurrentPage page => exact hop.elim
  | setItems items => exact applyFiltersAndSort_totalPagesLaw _
  | setItemsPerPage perPage => exact applyFiltersAndSort_totalPagesLaw _
  | setSortConfig config => exact applyFiltersAndSort_totalPagesLaw _
  | setFilterConfig u => exact applyFiltersAndSort_totalPagesLaw _
  | applyFiltersAndSort => exact applyFiltersAndSort_totalPagesLaw _
  | resetFilters => exact applyFiltersAndSort_totalPagesLaw _

/-- C3 witness: the totalPages law holds after a sort-config change on
the initial state. -/
theorem totalPages_recompute_witness :
    recomputes (.setSortConfig none) ∧
    0 < (applyOp (.setSortConfig none) initialGridState).itemsPerPage ∧
    totalPagesLaw (applyOp (.setSortConfig none) initialGridState) :=
  ⟨trivial, by decide,
   totalPages_recompute initialGridState _ trivial (by decide)⟩

/-- C7: for every filtered list and positive page size, the pagination
window of page k is the half-open range from (k-1)p of length p, exactly
the first ceil(n/p) pages are nonempty, every page before the last is
full, no page exceeds p, and the pages concatenate back to the list. -/
theorem pagination_windows (l : List DataItem) (p : Nat) (hp : 0 < p) :
    paginationProp l p :=
  ⟨fun k _ => paginate_window l p k,
   fun _ hk => paginate_ne_nil_iff hp hk,
   fun _ hk hlt => paginate_full_of_lt hp hk hlt,
   fun k => paginate_length_le l p k,
   paginate_flatten hp (ceilDiv l.length p) l rfl⟩

/-- C7 witness: the pagination facts at a concrete five-item list and
page size two. -/
theorem pagination_windows_witness :
    0 < 2 ∧ paginationProp itemsSmall 2 :=
  ⟨by decide, pagination_windows itemsSmall 2 (by decide)⟩

/-- C5 counterexample: two records tying on salary; the stable sort
leaves both orders equal to the input, so descending is not the reverse
of ascending. -/
theorem sortItems_desc_eq_reverse_cx :
    sortItems (some { key := .salary, direction := .desc }) [tieA, tieB]
      = [tieA, tieB] ∧
    (sortItems (some { key := .salary, direction := .asc })
      [tieA, tieB]).reverse = [tieB, tieA] ∧
    sortItems (some { key := .salary, direction := .desc }) [tieA, tieB] ≠
      (sortItems (some { key := .salary, direction := .asc })
        [tieA, tieB]).reverse := by decide

/-- C5 (amended): when the sort key takes pairwise distinct values on the
list (so the stable tie-breaking never matters), sorting descending
yields exactly the reverse of sorting ascending. -/
theorem sortItems_desc_eq_reverse_amended (k : SortKey) (l : List DataItem)
    (hinj : ∀ a ∈ l, ∀ b ∈ l, keyVal k a = keyVal k b → a = b) :
    sortItems (some { key := k, direction := .desc }) l =
      (sortItems (some { key := k, direction := .asc }) l).reverse :=
  sortItems_desc_eq_reverse k l hinj

/-- C5 witness: the amended statement at three records with pairwise
distinct salaries. -/
theorem sortItems_desc_eq_reverse_amended_witness :
    (∀ a ∈ distinctSalaryItems, ∀ b ∈ distinctSalaryItems,
      keyVal .salary a = keyVal .salary b → a = b) ∧
    sortItems (some { key := .salary, direction := .desc })
        distinctSalaryItems =
      (sortItems (some { key := .salary, direction := .asc })
        distinctSalaryItems).reverse :=
  ⟨by decide,
   sortItems_desc_eq_reverse_amended .salary distinctSalaryItems
     (by decide)⟩

/-- C9: from a grid holding 100 records, filtering by status active then
sorting by salary descending and taking page 1 at size 20 returns at
most 20 records, all active, every active record off page 1 earning at
most every record on page 1, and currentPage is 1 right after the filter
change. -/
theorem scenario_top_salaries (items : List DataItem)
    (_hlen : items.length = 100) : scenarioProp items := by
  have hD := scenarioAfterSort_filteredItems items
  have hpage : paginatedItems (scenarioAfterSort items) =
      ((scenarioAfterSort items).filteredItems).take 20 := by
    show paginate (scenarioAfterSort items).filteredItems 1 20 = _
    rw [paginate_window]
    norm_num
  refine ⟨rfl, ?_, ?_, ?_⟩
  · exact paginate_length_le _ _ _
  · intro x hx
    rw [hpage] at hx
    have hx₂ : x ∈ (scenarioAfterSort items).filteredItems :=
      List.mem_of_mem_take hx
    rw [hD] at hx₂
    have hmem := (List.perm_insertionSort _ _).subset hx₂
    exact eq_of_beq (List.mem_filter.mp hmem).2
  · intro x hx y hy
    rw [hpage] at hy
    have hpair := insertionSort_desc_pairwise .salary
      (items.filter (fun x => x.status == "active"))
    rw [← hD] at hpair
    have hcmp := sorted_take_drop hpair 20 y hy x hx
    simp only [cmpItems, keyVal] at hcmp
    omega

/-- C9 witness: the scenario at one hundred concrete generated records. -/
theorem scenario_top_salaries_witness : scenarioProp items100 :=
  scenario_top_salaries items100 (by simp [items100])

/-- C10: resetFilters restores the default filter configuration, clears
the sort, returns to page 1 and recomputes the derived list to the
stored items in their original order, leaving the stored items
unchanged. -/
theorem resetFilters_restores (s : GridState) : resetFiltersProp s := by
  refine ⟨rfl, rfl, rfl, ?_, rfl⟩
  exact applyFilters_default s.items

/-- C10 witness: the reset facts on a state loaded with concrete
items. -/
theorem resetFilters_restores_witness :
    resetFiltersProp (setItems itemsSmall initialGridState) :=
  resetFilters_restores (setItems itemsSmall initialGridState)

end DataGrid

namespace DynamicForm

/-- C6: after resetForm, every field of the resulting state is untouched
with the empty-string value and no error, and the submission flags and
error are cleared; this holds for the reducer of reducer.ts (whose
RESET_FORM empties the fields object, making the per-field statement
hold over an empty collection) and substantively for the variant reducer
that keeps every entry and resets it in place. -/
theorem resetForm_resets (s : FormState) : resetFormProp s := by
  refine ⟨?_, rfl, rfl, rfl, ?_, rfl, rfl, rfl, ?_⟩
  · intro f hf
    exact absurd hf (List.not_mem_nil f)
  · intro f hf
    obtain ⟨g, hg, rfl⟩ := List.mem_map.mp hf
    exact ⟨rfl, rfl, rfl⟩
  · show (resetAllFields s.fields).length = s.fields.length
    simp [resetAllFields]

/-- C6 witness: the reset facts at a concrete dirty state. -/
theorem resetForm_resets_witness : resetFormProp dirtyState :=
  resetForm_resets dirtyState

/-- C1 (amended): when some field has a nonempty validation error,
submitForm never consumes the callback outcome, attaches to each field
failing with a nonempty message exactly that message while leaving every
other field entry unchanged (a valid field keeps its prior error rather
than being guaranteed error-free, which is what the original claim
asserted), displays no form-level submit error, and ends with
isSubmitting false. -/
theorem submitForm_validation_failure
    (validate : String → Value → Option String) (s₀ : FormState)
    (hnodup : (s₀.fields.map FormField.name).Nodup)
    (hfail : ∃ f ∈ s₀.fields, errTruthy (validate f.name f.value) = true) :
    submitAttachesExactly validate s₀ := by
  have hasErr : s₀.fields.any (fun f => errTruthy (validate f.name f.value))
      = true := by
    rcases hfail with ⟨f, hf, ht⟩
    exact List.any_eq_true.mpr ⟨f, hf, ht⟩
  have hst := submitForm_hasErrors_state validate s₀ hnodup hasErr
  refine ⟨fun o₁ o₂ => by rw [hst o₁, hst o₂], fun o => ?_⟩
  exact ⟨by rw [hst o], by rw [hst o]; rfl, by rw [hst o]⟩

/-- C1 counterexample: a state in which one field fails validation and a
second field passes but carries a stale previously attached error; after
submitForm the valid field still carries an error, refuting the original
claim that valid fields carry no error. -/
theorem submitForm_stale_error_cx :
    (∃ f ∈ staleErrorState.fields,
      errTruthy (validateRequiredA f.name f.value) = true) ∧
    ∃ f ∈ (submitForm validateRequiredA .ok staleErrorState).fields,
      validateRequiredA f.name f.value = none ∧ f.error ≠ none := by decide

/-- C1 witness: the amended statement at a concrete two-field state with
one invalid and one valid field. -/
theorem submitForm_validation_failure_witness :
    (invalidAState.fields.map FormField.name).Nodup ∧
    (∃ f ∈ invalidAState.fields,
      errTruthy (validateRequiredA f.name f.value) = true) ∧
    submitAttachesExactly validateRequiredA invalidAState :=
  ⟨by decide, by decide,
   submitForm_validation_failure validateRequiredA invalidAState
     (by decide) (by decide)⟩

/-- C4: when every field passes validation and the callback throws, the
submit error becomes the thrown Error message (or the fallback string
for a messageless thrown value), the field entries and their values are
untouched, and isSubmitting ends false. -/
theorem submitForm_thrown_error
    (validate : String → Value → Option String) (s₀ : FormState)
    (h : ∀ f ∈ s₀.fields, errTruthy (validate f.name f.value) = false)
    (t : Thrown) : submitThrownProp validate t s₀ := by
  have hst := submitForm_thrown_state validate s₀ h t
  refine ⟨by rw [hst], ?_, ?_, by rw [hst], by rw [hst]⟩
  · intro m hm
    rw [hst, hm]
    rfl
  · intro hm
    rw [hst, hm]
    rfl

/-- C4 witness: a fully valid concrete state with a callback throwing an
Error carrying the message X. -/
theorem submitForm_thrown_error_witness :
    (∀ f ∈ validState.fields,
      errTruthy (validateRequiredA f.name f.value) = false) ∧
    submitThrownProp validateRequiredA (.errorWithMessage "X") validState :=
  ⟨by decide,
   submitForm_thrown_error validateRequiredA validState (by decide)
     (.errorWithMessage "X")⟩

end DynamicForm
